import Mathlib

/-!
Verification development for the liveness-checking repository.

The repository ships a React component `LivenessChecker` in two revisions;
the later revision (the one with blink hysteresis, a refractory period and a
frame-local pass check) is the canonical one and is what is embedded here.
Scalar signals and clock readings are modelled as rationals (`ℚ`); the
session state mirrors the component's React state plus its mutable refs,
and one processed frame is a pure state transformer mirroring `onResults`
followed by the React "final guard" effect.

The helper library `../lib/geometry` (`earFromLandmarks`, `yawProxy`, `ema`)
is imported by the component but absent from the sources; those three
functions are modelled from the specification and are marked as such.
-/

namespace Liveness

/-- Direction of a detected head turn: the strings "left" / "right" in the
source. -/
inductive Dir where
  | left
  | right
deriving DecidableEq, Repr

/-- Error condition of the geometry extractors: the spec requires them to
fail fast with a distinct "insufficient landmarks" condition. -/
inductive GeomError where
  | insufficientLandmarks
deriving DecidableEq, Repr

/-- A single normalized 2-D landmark point. -/
structure Landmark where
  x : ℚ
  y : ℚ
deriving DecidableEq, Repr

/-- Modelled from the spec: `ema` is imported from `../lib/geometry`, which
is missing from the sources. Per §4.1 its contract is: if `previous` is
absent (first sample) return `sample` unchanged, otherwise return
`alpha*sample + (1-alpha)*previous`. It is a plain total function. -/
def ema (previous : Option ℚ) (sample alpha : ℚ) : ℚ :=
  match previous with
  | none => sample
  | some p => alpha * sample + (1 - alpha) * p

/-- Modelled from the spec: `earFromLandmarks` is imported from
`../lib/geometry`, which is missing from the sources. The spec says only
that the EAR is a scalar computed from eyelid landmark distances and that
the extractor must fail fast with an "insufficient landmarks" condition
when required indices are missing; the scalar itself is modelled as the
vertical eyelid distance over the horizontal corner distance (the standard
eye-aspect-ratio shape; its exact formula decides no claim). -/
def earFromLandmarks (lm : List Landmark) (top bottom leftC rightC : ℕ) :
    Except GeomError ℚ :=
  match lm[top]?, lm[bottom]?, lm[leftC]?, lm[rightC]? with
  | some pt, some pb, some pl, some pr => .ok (|pt.y - pb.y| / |pl.x - pr.x|)
  | _, _, _, _ => .error .insufficientLandmarks

/-- Modelled from the spec: `yawProxy` is imported from `../lib/geometry`,
which is missing from the sources. The source comments call it a
"cheek-normalized nose offset"; it is modelled as the offset of the nose
tip (index 1) from the midpoint of the cheeks (indices 234 and 454),
normalized by the half cheek distance, failing fast when any of those
indices is missing. Its exact formula decides no claim. -/
def yawProxy (lm : List Landmark) : Except GeomError ℚ :=
  match lm[1]?, lm[234]?, lm[454]? with
  | some nose, some lc, some rc =>
      .ok ((nose.x - (lc.x + rc.x) / 2) / ((rc.x - lc.x) / 2))
  | _, _, _ => .error .insufficientLandmarks

/-- The configuration surface of `LivenessChecker` (source lines 550-557):
exactly the numeric props the caller can supply, with the source defaults.
(`onChange` is the snapshot callback and carries no configuration.) -/
structure Props where
  sessionWindowMs : ℚ := 8000
  earThreshold : ℚ := 18/100
  earCloseMinMs : ℚ := 120
  yawAbsThreshold : ℚ := 55/100
  yawHoldMinMs : ℚ := 250
deriving DecidableEq, Repr

/-- The source defaults of the configuration surface. -/
def defaultProps : Props := {}

/-- JavaScript truthiness of a nullable number: `null` and `0` are falsy.
The source guards the yaw hold timer with `if (!yawBeyondSinceRef.current)`,
which treats a stored timestamp of `0` like an unset one. -/
def truthyQ (o : Option ℚ) : Bool :=
  match o with
  | none => false
  | some q => decide (q ≠ 0)

/-- Session state: the React state of the canonical `LivenessChecker`
revision (`blinkCount`, `turnDetected`, `turnedLeft`, `turnedRight`,
`livenessPassed`, and the debug metrics `leftEAR`/`rightEAR`/`yawDev`)
together with its mutable refs (`earLeftEMARef`, `earRightEMARef`,
`yawEMARef`, `eyesWereClosedRef`, `eyesClosedSinceRef`, `lastBlinkAtRef`,
`yawBeyondSinceRef`). `blinkCountRef` always mirrors `blinkCount` between
frames, so it is not duplicated here. -/
structure SessionState where
  blinkCount : ℕ
  turnDetected : Option Dir
  turnedLeft : Bool
  turnedRight : Bool
  livenessPassed : Bool
  earLeftEMA : Option ℚ
  earRightEMA : Option ℚ
  yawEMA : Option ℚ
  eyesWereClosed : Bool
  eyesClosedSince : Option ℚ
  lastBlinkAt : ℚ
  yawBeyondSince : Option ℚ
  leftEAR : ℚ
  rightEAR : ℚ
  yawDev : ℚ
deriving DecidableEq, Repr

/-- Session reset, `resetSession` (source lines 598-624): every counter, flag, smoother
and timer returns to its initial value; `lastBlinkAtRef` is rewound to `0`
(a number, not "unset"). -/
def resetSession : SessionState :=
  { blinkCount := 0
    turnDetected := none
    turnedLeft := false
    turnedRight := false
    livenessPassed := false
    earLeftEMA := none
    earRightEMA := none
    yawEMA := none
    eyesWereClosed := false
    eyesClosedSince := none
    lastBlinkAt := 0
    yawBeyondSince := none
    leftEAR := 0
    rightEAR := 0
    yawDev := 0 }

/-- Rounding to three decimals, as `Number(v.toFixed(3))` does for the
debug metrics. Only the debug fields pass through this. -/
def round3 (q : ℚ) : ℚ := (round (q * 1000) : ℤ) / 1000

/-- The blink-relevant fields, bundled for the blink block of `onResults`. -/
structure BlinkSt where
  eyesWereClosed : Bool
  eyesClosedSince : Option ℚ
  lastBlinkAt : ℚ
  blinkCount : ℕ
deriving DecidableEq, Repr

/-- The blink block of `onResults` (source lines 774-811): hysteresis with
`closeTh = earThreshold` and `openTh = earThreshold + 0.03` (the margin is
the literal `0.03` in the source), minimum closed duration
`earCloseMinMs` from the props, and the hard-coded 250 ms refractory
(`const refractoryMs = 250`). -/
def blinkStep (p : Props) (b : BlinkSt) (earAvg now : ℚ) : BlinkSt :=
  let closeTh := p.earThreshold
  let openTh := p.earThreshold + 3/100
  let eyesClosed := if b.eyesWereClosed then decide (earAvg < openTh)
                    else decide (earAvg < closeTh)
  if eyesClosed then
    if !b.eyesWereClosed then
      { b with eyesWereClosed := true, eyesClosedSince := some now }
    else b
  else if b.eyesWereClosed then
    let closedMs := now - b.eyesClosedSince.getD now
    let b1 : BlinkSt := { b with eyesWereClosed := false, eyesClosedSince := none }
    if closedMs ≥ p.earCloseMinMs then
      if now - b1.lastBlinkAt ≥ 250 then
        { b1 with blinkCount := b1.blinkCount + 1, lastBlinkAt := now }
      else b1
    else b1
  else b

/-- The turn-relevant fields, bundled for the yaw block of `onResults`. -/
structure TurnSt where
  yawBeyondSince : Option ℚ
  turnDetected : Option Dir
  turnedLeft : Bool
  turnedRight : Bool
  livenessPassed : Bool
deriving DecidableEq, Repr

/-- The yaw block of `onResults` (source lines 824-854): threshold plus
minimum hold, the `turnDetected` assignment guarded by `if (!turnDetected)`,
the two "ever" flags, and the frame-local pass check inside the held branch
(`!livenessPassed && nextLeft && nextRight && nextBlinkCount >= 2`).
`nextBlinkCount` is the blink count already produced by this same call. -/
def turnStep (p : Props) (t : TurnSt) (yawSm now : ℚ) (nextBlinkCount : ℕ) :
    TurnSt :=
  if |yawSm| ≥ p.yawAbsThreshold then
    if !truthyQ t.yawBeyondSince then
      { t with yawBeyondSince := some now }
    else
      let since := t.yawBeyondSince.getD 0
      let held := now - since
      if held ≥ p.yawHoldMinMs then
        let dir := if yawSm > 0 then Dir.right else Dir.left
        let turnDetected := if t.turnDetected.isSome then t.turnDetected else some dir
        let turnedLeft := if dir = Dir.left then true else t.turnedLeft
        let turnedRight := if dir = Dir.right then true else t.turnedRight
        let nextLeft := if dir = Dir.left then true else t.turnedLeft
        let nextRight := if dir = Dir.right then true else t.turnedRight
        let livenessPassed :=
          if !t.livenessPassed && nextLeft && nextRight && decide (2 ≤ nextBlinkCount)
          then true else t.livenessPassed
        { t with turnDetected := turnDetected, turnedLeft := turnedLeft,
                 turnedRight := turnedRight, livenessPassed := livenessPassed }
      else t
  else { t with yawBeyondSince := none }

/-- The EAR/EMA/blink phase of the face-present path of `onResults`
(source lines 764-811): smooth the two raw EARs, average them, and run the
blink block. These effects commit before `yawProxy` is even called, which
matters when `yawProxy` throws (source line 814 versus the catch at 868). -/
def blinkPhase (p : Props) (s : SessionState) (left right now : ℚ) :
    SessionState :=
  let earLeftEMA := ema s.earLeftEMA left (35/100)
  let earRightEMA := ema s.earRightEMA right (35/100)
  let lSm := earLeftEMA
  let rSm := earRightEMA
  let earAvg := (lSm + rSm) / 2
  let b0 : BlinkSt :=
    ⟨s.eyesWereClosed, s.eyesClosedSince, s.lastBlinkAt, s.blinkCount⟩
  let b1 := blinkStep p b0 earAvg now
  { s with earLeftEMA := some earLeftEMA, earRightEMA := some earRightEMA,
           eyesWereClosed := b1.eyesWereClosed,
           eyesClosedSince := b1.eyesClosedSince,
           lastBlinkAt := b1.lastBlinkAt,
           blinkCount := b1.blinkCount }

/-- The yaw/turn/debug/decisive-check phase of the face-present path of
`onResults` (source lines 813-867), applied to the state the blink phase
committed. In the source, the closure variables `livenessPassed`,
`turnDetected` and `nextTurnDetected` still hold the frame-start values
here (the blink phase never writes them), and the decisive check at lines
863-867 reads `nextTurnDetected`, which is never reassigned after its
initialization from `turnDetected`. -/
def yawPhase (p : Props) (s : SessionState) (yawRaw now : ℚ) : SessionState :=
  let yawEMA := ema s.yawEMA yawRaw (25/100)
  let yawSm := yawEMA
  let t0 : TurnSt :=
    ⟨s.yawBeyondSince, s.turnDetected, s.turnedLeft, s.turnedRight,
      s.livenessPassed⟩
  let t1 := turnStep p t0 yawSm now s.blinkCount
  let lSm := s.earLeftEMA.getD 0
  let rSm := s.earRightEMA.getD 0
  let livenessPassed :=
    t1.livenessPassed ||
      (!s.livenessPassed && decide (2 ≤ s.blinkCount) && s.turnDetected.isSome)
  { s with yawEMA := some yawEMA,
           yawBeyondSince := t1.yawBeyondSince,
           turnDetected := t1.turnDetected,
           turnedLeft := t1.turnedLeft,
           turnedRight := t1.turnedRight,
           livenessPassed := livenessPassed,
           leftEAR := round3 lSm,
           rightEAR := round3 rSm,
           yawDev := round3 yawSm }

/-- The full face-present path of `onResults`, fed with the already
extracted raw scalars. -/
def onFace (p : Props) (s : SessionState) (left right yawRaw now : ℚ) :
    SessionState :=
  yawPhase p (blinkPhase p s left right now) yawRaw now

/-- The no-face branch of `onResults` (source lines 757-762): clear the two
in-flight timers, zero the debug metrics (`updateDebug(0, 0, 0)`), and
return. Nothing else changes; in particular `eyesWereClosedRef` and the
three EMA refs are left as they were. -/
def onNoFace (s : SessionState) : SessionState :=
  { s with eyesClosedSince := none,
           yawBeyondSince := none,
           leftEAR := 0, rightEAR := 0, yawDev := 0 }

/-- A frame after landmark extraction: either no face, or the raw scalars
`earFromLandmarks` and `yawProxy` would produce, with the clock reading. -/
inductive RawFrame where
  | noFace
  | face (left right yawRaw now : ℚ)
deriving DecidableEq, Repr

/-- One invocation of `onResults` on a frame (canonical revision, source
lines 735-872), at the raw-scalar level. -/
def onResults (p : Props) (s : SessionState) (f : RawFrame) : SessionState :=
  match f with
  | .noFace => onNoFace s
  | .face left right yawRaw now => onFace p s left right yawRaw now

/-- The "final guard" React effect (source lines 722-727): whenever the
committed state has both turn flags and at least two blinks but `passed`
is still false, upgrade `passed` to true. -/
def finalGuard (s : SessionState) : SessionState :=
  if !s.livenessPassed && s.turnedLeft && s.turnedRight &&
      decide (2 ≤ s.blinkCount)
  then { s with livenessPassed := true } else s

/-- One delivered frame: `onResults` followed by the final-guard effect
that React runs on the committed state before the next frame. -/
def processFrame (p : Props) (s : SessionState) (f : RawFrame) : SessionState :=
  finalGuard (onResults p s f)

/-- A whole sequence of delivered frames within one session. -/
def runFrames (p : Props) (s : SessionState) (fs : List RawFrame) :
    SessionState :=
  fs.foldl (processFrame p) s

/-- Concrete trace: two qualifying blinks (closures of 200 ms crossing the
0.18/0.21 hysteresis band), then a right-direction yaw hold of 300 ms, then
one more neutral face frame. Timestamps are milliseconds. -/
def c1Trace : List RawFrame :=
  [ .face 0.1 0.1 0 1000
  , .face 0.5 0.5 0 1200
  , .face 0.01 0.01 0 2000
  , .face 0.9 0.9 0 2200
  , .face 0.9 0.9 3 2300
  , .face 0.9 0.9 3 2600
  , .face 0.9 0.9 0 2700 ]

/-- Concrete trace: a right-direction hold of 300 ms, a dip below the yaw
threshold, then a left-direction hold of 300 ms. EARs stay open. -/
def c4Trace : List RawFrame :=
  [ .face 0.5 0.5 3 100
  , .face 0.5 0.5 3 400
  , .face 0.5 0.5 (-9) 500
  , .face 0.5 0.5 (-9) 600
  , .face 0.5 0.5 (-9) 900 ]

/-- Concrete trace: enter a closure, then lose the face mid-closure. -/
def c5Trace : List RawFrame :=
  [ .face 0.1 0.1 0 1000
  , .noFace ]

/-- A session state captured mid-closure: the closed flag is set and the
closure timestamp stored, as after an enter-closed frame. -/
def midClosure : SessionState :=
  { resetSession with eyesWereClosed := true, eyesClosedSince := some 5 }

/-- A full landmark list: 455 points at the origin, enough for every index
the extractors need. Over it both EARs evaluate to 0 and the yaw proxy to
0, so a face frame over it enters a closure. -/
def fullLm : List Landmark := List.replicate 455 ⟨0, 0⟩

/-- A frame as delivered by the face-mesh collaborator: either no face, or
a landmark list with the clock reading. -/
inductive LmFrame where
  | noFace
  | face (lm : List Landmark) (now : ℚ)
deriving DecidableEq, Repr

/-- One invocation of `onResults` at the landmark level: the two
`earFromLandmarks` calls happen first (source lines 765-766); if either
fails, the exception reaches the catch at lines 868-870 before any state
was touched, so the state is returned unchanged. If they succeed, the EMA
and blink effects commit, and only then is `yawProxy` called (line 814):
if it fails, the blink-phase effects remain committed and the rest of the
frame is skipped. The catch only logs; nothing is returned to the caller. -/
def processLmFrame (p : Props) (s : SessionState) (f : LmFrame) :
    SessionState :=
  match f with
  | .noFace => onNoFace s
  | .face lm now =>
    match earFromLandmarks lm 159 145 33 133,
          earFromLandmarks lm 386 374 263 362 with
    | .ok left, .ok right =>
      let sMid := blinkPhase p s left right now
      match yawProxy lm with
      | .ok yawRaw => yawPhase p sMid yawRaw now
      | .error _ => sMid
    | _, _ => s

/-- The session state after one face frame over the full landmark list:
a closure entered at the 1000 ms clock reading. -/
def c9Closed : SessionState :=
  processLmFrame defaultProps resetSession (.face fullLm 1000)

end Liveness

namespace Liveness

/-! ### Helper lemmas -/

/-- Absolute value of a rational as a conditional, so that concrete
comparisons against `|yawSm|` evaluate. -/
theorem abs_ite (q : ℚ) : |q| = if q < 0 then -q else q := by
  rcases lt_or_ge q 0 with h | h
  · simp [abs_of_neg h, h]
  · simp [abs_of_nonneg h, not_lt.mpr h]

/-- The blink block never decreases the blink count. -/
theorem blinkStep_count_le (p : Props) (b : BlinkSt) (earAvg now : ℚ) :
    b.blinkCount ≤ (blinkStep p b earAvg now).blinkCount := by
  unfold blinkStep
  dsimp only
  split_ifs <;> simp

/-- The blink block preserves "a stored closure timestamp implies the
closed flag". -/
theorem blinkStep_closed_of_since (p : Props) (b : BlinkSt) (earAvg now : ℚ)
    (h : b.eyesClosedSince.isSome = true → b.eyesWereClosed = true) :
    (blinkStep p b earAvg now).eyesClosedSince.isSome = true →
      (blinkStep p b earAvg now).eyesWereClosed = true := by
  unfold blinkStep
  dsimp only
  split_ifs <;> simp_all

/-- The yaw block never lowers `livenessPassed`. -/
theorem turnStep_passed_mono (p : Props) (t : TurnSt) (yawSm now : ℚ)
    (nbc : ℕ) (h : t.livenessPassed = true) :
    (turnStep p t yawSm now nbc).livenessPassed = true := by
  unfold turnStep
  dsimp only
  split_ifs <;> simp_all

/-- The yaw block never clears `turnedLeft`. -/
theorem turnStep_turnedLeft_mono (p : Props) (t : TurnSt) (yawSm now : ℚ)
    (nbc : ℕ) (h : t.turnedLeft = true) :
    (turnStep p t yawSm now nbc).turnedLeft = true := by
  unfold turnStep
  dsimp only
  split_ifs <;> simp_all

/-- The yaw block never clears `turnedRight`. -/
theorem turnStep_turnedRight_mono (p : Props) (t : TurnSt) (yawSm now : ℚ)
    (nbc : ℕ) (h : t.turnedRight = true) :
    (turnStep p t yawSm now nbc).turnedRight = true := by
  unfold turnStep
  dsimp only
  split_ifs <;> simp_all

/-- The final guard does not touch the blink count. -/
theorem finalGuard_blinkCount (s : SessionState) :
    (finalGuard s).blinkCount = s.blinkCount := by
  unfold finalGuard
  split_ifs <;> rfl

/-- The final guard does not touch the turn fields. -/
theorem finalGuard_turn_fields (s : SessionState) :
    (finalGuard s).turnedLeft = s.turnedLeft ∧
    (finalGuard s).turnedRight = s.turnedRight ∧
    (finalGuard s).turnDetected = s.turnDetected ∧
    (finalGuard s).eyesWereClosed = s.eyesWereClosed ∧
    (finalGuard s).eyesClosedSince = s.eyesClosedSince := by
  unfold finalGuard
  split_ifs <;> simp

/-- The final guard never lowers `livenessPassed`. -/
theorem finalGuard_passed_mono (s : SessionState)
    (h : s.livenessPassed = true) : (finalGuard s).livenessPassed = true := by
  unfold finalGuard
  split_ifs <;> simp_all

/-- Field bookkeeping for the blink phase. -/
theorem blinkPhase_fields (p : Props) (s : SessionState) (l r now : ℚ) :
    (blinkPhase p s l r now).turnedLeft = s.turnedLeft ∧
    (blinkPhase p s l r now).turnedRight = s.turnedRight ∧
    (blinkPhase p s l r now).turnDetected = s.turnDetected ∧
    (blinkPhase p s l r now).livenessPassed = s.livenessPassed := by
  unfold blinkPhase
  exact ⟨rfl, rfl, rfl, rfl⟩

/-- Field bookkeeping for the yaw phase. -/
theorem yawPhase_fields (p : Props) (s : SessionState) (y now : ℚ) :
    (yawPhase p s y now).blinkCount = s.blinkCount ∧
    (yawPhase p s y now).eyesWereClosed = s.eyesWereClosed ∧
    (yawPhase p s y now).eyesClosedSince = s.eyesClosedSince := by
  unfold yawPhase
  exact ⟨rfl, rfl, rfl⟩

/-- One processed frame never decreases the blink count. -/
theorem processFrame_count_le (p : Props) (s : SessionState) (f : RawFrame) :
    s.blinkCount ≤ (processFrame p s f).blinkCount := by
  cases f with
  | noFace => simp [processFrame, onResults, onNoFace, finalGuard_blinkCount]
  | face l r y n =>
    show s.blinkCount ≤ (finalGuard (yawPhase p (blinkPhase p s l r n) y n)).blinkCount
    rw [finalGuard_blinkCount, (yawPhase_fields p (blinkPhase p s l r n) y n).1]
    exact blinkStep_count_le p
      ⟨s.eyesWereClosed, s.eyesClosedSince, s.lastBlinkAt, s.blinkCount⟩
      ((ema s.earLeftEMA l (35/100) + ema s.earRightEMA r (35/100)) / 2) n

/-- One processed frame never lowers `livenessPassed`. -/
theorem processFrame_passed_mono (p : Props) (s : SessionState) (f : RawFrame)
    (h : s.livenessPassed = true) :
    (processFrame p s f).livenessPassed = true := by
  cases f with
  | noFace =>
    apply finalGuard_passed_mono
    simpa [onResults, onNoFace] using h
  | face l r y n =>
    apply finalGuard_passed_mono
    show (yawPhase p (blinkPhase p s l r n) y n).livenessPassed = true
    have hmid : (blinkPhase p s l r n).livenessPassed = true := by
      rw [(blinkPhase_fields p s l r n).2.2.2]; exact h
    unfold yawPhase
    dsimp only
    rw [turnStep_passed_mono _ _ _ _ _ hmid]
    simp

/-- One processed frame never clears `turnedLeft`. -/
theorem processFrame_turnedLeft_mono (p : Props) (s : SessionState)
    (f : RawFrame) (h : s.turnedLeft = true) :
    (processFrame p s f).turnedLeft = true := by
  cases f with
  | noFace =>
    show (finalGuard (onNoFace s)).turnedLeft = true
    rw [(finalGuard_turn_fields _).1]
    simpa [onNoFace] using h
  | face l r y n =>
    rw [show processFrame p s (.face l r y n)
          = finalGuard (yawPhase p (blinkPhase p s l r n) y n) from rfl,
        (finalGuard_turn_fields _).1]
    have hmid : (blinkPhase p s l r n).turnedLeft = true := by
      rw [(blinkPhase_fields p s l r n).1]; exact h
    unfold yawPhase
    dsimp only
    exact turnStep_turnedLeft_mono _ _ _ _ _ hmid

/-- One processed frame never clears `turnedRight`. -/
theorem processFrame_turnedRight_mono (p : Props) (s : SessionState)
    (f : RawFrame) (h : s.turnedRight = true) :
    (processFrame p s f).turnedRight = true := by
  cases f with
  | noFace =>
    show (finalGuard (onNoFace s)).turnedRight = true
    rw [(finalGuard_turn_fields _).2.1]
    simpa [onNoFace] using h
  | face l r y n =>
    rw [show processFrame p s (.face l r y n)
          = finalGuard (yawPhase p (blinkPhase p s l r n) y n) from rfl,
        (finalGuard_turn_fields _).2.1]
    have hmid : (blinkPhase p s l r n).turnedRight = true := by
      rw [(blinkPhase_fields p s l r n).2.1]; exact h
    unfold yawPhase
    dsimp only
    exact turnStep_turnedRight_mono _ _ _ _ _ hmid

/-- Unfolding one frame of a run. -/
theorem runFrames_cons (p : Props) (s : SessionState) (f : RawFrame)
    (fs : List RawFrame) :
    runFrames p s (f :: fs) = runFrames p (processFrame p s f) fs := rfl

/-- Blink-count monotonicity over a whole run. -/
theorem runFrames_count_le (p : Props) (s : SessionState)
    (fs : List RawFrame) : s.blinkCount ≤ (runFrames p s fs).blinkCount := by
  induction fs generalizing s with
  | nil => exact le_refl _
  | cons f fs ih =>
    rw [runFrames_cons]
    exact le_trans (processFrame_count_le p s f) (ih _)

/-- Latch monotonicity over a whole run. -/
theorem runFrames_passed_mono (p : Props) (s : SessionState)
    (fs : List RawFrame) (h : s.livenessPassed = true) :
    (runFrames p s fs).livenessPassed = true := by
  induction fs generalizing s with
  | nil => exact h
  | cons f fs ih =>
    rw [runFrames_cons]
    exact ih _ (processFrame_passed_mono p s f h)

/-- Ever-flag monotonicity over a whole run, left. -/
theorem runFrames_turnedLeft_mono (p : Props) (s : SessionState)
    (fs : List RawFrame) (h : s.turnedLeft = true) :
    (runFrames p s fs).turnedLeft = true := by
  induction fs generalizing s with
  | nil => exact h
  | cons f fs ih =>
    rw [runFrames_cons]
    exact ih _ (processFrame_turnedLeft_mono p s f h)

/-- Ever-flag monotonicity over a whole run, right. -/
theorem runFrames_turnedRight_mono (p : Props) (s : SessionState)
    (fs : List RawFrame) (h : s.turnedRight = true) :
    (runFrames p s fs).turnedRight = true := by
  induction fs generalizing s with
  | nil => exact h
  | cons f fs ih =>
    rw [runFrames_cons]
    exact ih _ (processFrame_turnedRight_mono p s f h)

/-! ### Claim theorems -/

/-- C2: for any sequence of processed frames within one session,
`blinkCount` is non-decreasing and `passed` is non-decreasing (once true it
never reverts on a later frame), and both are cleared (to `0` and `false`)
only by the reset that reinitializes the session state. -/
theorem C2_monotone (p : Props) (s : SessionState) (fs : List RawFrame) :
    s.blinkCount ≤ (runFrames p s fs).blinkCount ∧
    (s.livenessPassed = true → (runFrames p s fs).livenessPassed = true) ∧
    resetSession.blinkCount = 0 ∧ resetSession.livenessPassed = false :=
  ⟨runFrames_count_le p s fs, runFrames_passed_mono p s fs, rfl, rfl⟩

/-- C2 witness: a concrete session that already passed, run over a concrete
frame, keeps `passed` and never loses blinks. -/
theorem C2_monotone_witness :
    ({ resetSession with livenessPassed := true, blinkCount := 3
        } : SessionState).livenessPassed = true ∧
    ({ resetSession with livenessPassed := true, blinkCount := 3
        } : SessionState).blinkCount
      ≤ (runFrames defaultProps
          { resetSession with livenessPassed := true, blinkCount := 3 }
          [.noFace, .face 0.1 0.1 0 500]).blinkCount ∧
    (runFrames defaultProps
        { resetSession with livenessPassed := true, blinkCount := 3 }
        [.noFace, .face 0.1 0.1 0 500]).livenessPassed = true := by
  refine ⟨rfl, ?_, ?_⟩
  · exact (C2_monotone defaultProps _ _).1
  · exact (C2_monotone defaultProps _ _).2.1 rfl

/-- C6: a frame delivered with no landmark set clears only the two
detectors' in-flight timers; the previous smoothed (EMA) values are
retained, and the snapshot of that frame carries the counts and flags
unchanged. -/
theorem C6_noFace_frame (p : Props) (s : SessionState) :
    (onResults p s .noFace).eyesClosedSince = none ∧
    (onResults p s .noFace).yawBeyondSince = none ∧
    (onResults p s .noFace).earLeftEMA = s.earLeftEMA ∧
    (onResults p s .noFace).earRightEMA = s.earRightEMA ∧
    (onResults p s .noFace).yawEMA = s.yawEMA ∧
    (onResults p s .noFace).blinkCount = s.blinkCount ∧
    (onResults p s .noFace).turnDetected = s.turnDetected ∧
    (onResults p s .noFace).turnedLeft = s.turnedLeft ∧
    (onResults p s .noFace).turnedRight = s.turnedRight ∧
    (onResults p s .noFace).livenessPassed = s.livenessPassed ∧
    (onResults p s .noFace).lastBlinkAt = s.lastBlinkAt := by
  refine ⟨rfl, rfl, rfl, rfl, rfl, rfl, rfl, rfl, rfl, rfl, rfl⟩

/-- C7: the exponential smoother returns the sample unchanged when the
previous value is absent, and `alpha*sample + (1-alpha)*previous`
otherwise, for any weight `alpha` in `(0, 1]`; it is a plain total
function. -/
theorem C7_ema_contract (prev sample alpha : ℚ) (_h0 : 0 < alpha)
    (_h1 : alpha ≤ 1) :
    ema none sample alpha = sample ∧
    ema (some prev) sample alpha = alpha * sample + (1 - alpha) * prev :=
  ⟨rfl, rfl⟩

/-- C7 witness: the smoother evaluated at concrete inputs. -/
theorem C7_ema_contract_witness :
    (0 : ℚ) < 7/20 ∧ (7/20 : ℚ) ≤ 1 ∧
    ema none 5 (7/20 : ℚ) = 5 ∧
    ema (some 3) 5 (7/20 : ℚ) = 7/20 * 5 + (1 - 7/20) * 3 :=
  ⟨by norm_num, by norm_num,
    (C7_ema_contract 3 5 (7/20) (by norm_num) (by norm_num)).1,
    (C7_ema_contract 3 5 (7/20) (by norm_num) (by norm_num)).2⟩

end Liveness

namespace Liveness

/-- C3: with the detector currently closed, an averaged smoothed EAR at or
above `openThreshold = closeThreshold + margin` leaves the closed state,
and counts exactly one blink (incrementing `blinkCount` and setting the
last-blink timestamp to `now`) if and only if the closure lasted at least
`earCloseMinMs` and at least the 250 ms refractory elapsed since the last
counted blink; otherwise the closure is discarded with no count. While the
averaged EAR lies in the hysteresis band between the two thresholds the
detector remains closed with no transition at all. -/
theorem C3_blink_exit_transition (p : Props) (b : BlinkSt) (earAvg now t0 : ℚ)
    (hClosed : b.eyesWereClosed = true)
    (hSince : b.eyesClosedSince = some t0) :
    (earAvg ≥ p.earThreshold + 3/100 →
      (blinkStep p b earAvg now).eyesWereClosed = false ∧
      (blinkStep p b earAvg now).eyesClosedSince = none ∧
      (now - t0 ≥ p.earCloseMinMs ∧ now - b.lastBlinkAt ≥ 250 →
        (blinkStep p b earAvg now).blinkCount = b.blinkCount + 1 ∧
        (blinkStep p b earAvg now).lastBlinkAt = now) ∧
      (¬(now - t0 ≥ p.earCloseMinMs ∧ now - b.lastBlinkAt ≥ 250) →
        (blinkStep p b earAvg now).blinkCount = b.blinkCount ∧
        (blinkStep p b earAvg now).lastBlinkAt = b.lastBlinkAt)) ∧
    (earAvg ≥ p.earThreshold → earAvg < p.earThreshold + 3/100 →
      blinkStep p b earAvg now = b) := by
  constructor
  · intro hOpen
    have hno : ¬ (earAvg < p.earThreshold + 3/100) := not_lt.mpr hOpen
    simp only [blinkStep, hClosed, hSince, if_true, Bool.not_true,
      Option.getD_some, decide_eq_true_eq, ge_iff_le]
    rw [if_neg hno]
    constructor
    · split_ifs <;> rfl
    constructor
    · split_ifs <;> rfl
    constructor
    · rintro ⟨h1, h2⟩
      rw [if_pos h1, if_pos h2]
      exact ⟨rfl, rfl⟩
    · intro hnot
      by_cases h1 : p.earCloseMinMs ≤ now - t0
      · have h2 : ¬ (250 ≤ now - b.lastBlinkAt) := fun h2 => hnot ⟨h1, h2⟩
        rw [if_pos h1, if_neg h2]
        exact ⟨rfl, rfl⟩
      · rw [if_neg h1]
        exact ⟨rfl, rfl⟩
  · intro _hLow hBand
    simp only [blinkStep, hClosed, if_true]
    rw [if_pos (by simpa using hBand)]
    simp

/-- C3 witness: a concrete closed state whose closure qualifies counts one
blink and stamps the last-blink time; in the band nothing changes. -/
theorem C3_blink_exit_transition_witness :
    (blinkStep defaultProps ⟨true, some 1000, 700, 3⟩ (22/100) 1200).blinkCount = 4 ∧
    (blinkStep defaultProps ⟨true, some 1000, 700, 3⟩ (22/100) 1200).lastBlinkAt = 1200 ∧
    blinkStep defaultProps ⟨true, some 1000, 700, 3⟩ (19/100) 1200 = ⟨true, some 1000, 700, 3⟩ := by
  have h := C3_blink_exit_transition defaultProps ⟨true, some 1000, 700, 3⟩
    (22/100) 1200 1000 rfl rfl
  have h19 := C3_blink_exit_transition defaultProps ⟨true, some 1000, 700, 3⟩
    (19/100) 1200 1000 rfl rfl
  refine ⟨?_, ?_, ?_⟩
  · exact ((h.1 (by norm_num [defaultProps])).2.2.1 (by norm_num [defaultProps])).1
  · exact ((h.1 (by norm_num [defaultProps])).2.2.1 (by norm_num [defaultProps])).2
  · exact h19.2 (by norm_num [defaultProps]) (by norm_num [defaultProps])

/-- C4 counterexample: after a completed right hold, a later completed left
hold raises `turnedLeft` but leaves `lastDirection` (`turnDetected`) at
"right": the claim that `lastDirection` is updated on every hold event
fails on this concrete session. -/
theorem C4_counterexample :
    (runFrames defaultProps resetSession c4Trace).turnedLeft = true ∧
    (runFrames defaultProps resetSession c4Trace).turnedRight = true ∧
    (runFrames defaultProps resetSession c4Trace).turnDetected = some Dir.right := by
  norm_num [runFrames, c4Trace, processFrame, onResults, onFace, blinkPhase,
    yawPhase, blinkStep, turnStep, ema, truthyQ, finalGuard, resetSession,
    defaultProps, round3, round_eq, List.foldl, abs_ite]

/-- C4 amended: when the smoothed yaw magnitude has stayed beyond
`yawAbsThreshold` for at least `yawHoldMinMs`, the detector sets the
"ever" flag matching the sign of the current smoothed yaw, but writes
`lastDirection` only if it was still unset (the source guards it with
`if (!turnDetected)`); each "ever" flag, once true, survives every later
frame and is cleared only by session reset. -/
theorem C4_turn_event_amended (p : Props) (t : TurnSt) (yawSm now since : ℚ)
    (nbc : ℕ) (s : SessionState) (fs : List RawFrame)
    (hBeyond : |yawSm| ≥ p.yawAbsThreshold)
    (hSince : t.yawBeyondSince = some since) (hNZ : since ≠ 0)
    (hHeld : now - since ≥ p.yawHoldMinMs) :
    (turnStep p t yawSm now nbc).turnDetected =
      (if t.turnDetected.isSome then t.turnDetected
       else some (if yawSm > 0 then Dir.right else Dir.left)) ∧
    ((if yawSm > 0 then Dir.right else Dir.left) = Dir.left →
      (turnStep p t yawSm now nbc).turnedLeft = true) ∧
    ((if yawSm > 0 then Dir.right else Dir.left) = Dir.right →
      (turnStep p t yawSm now nbc).turnedRight = true) ∧
    (s.turnedLeft = true → (runFrames p s fs).turnedLeft = true) ∧
    (s.turnedRight = true → (runFrames p s fs).turnedRight = true) ∧
    resetSession.turnedLeft = false ∧ resetSession.turnedRight = false := by
  have htr : truthyQ (some since) = true := by simp [truthyQ, hNZ]
  refine ⟨?_, ?_, ?_, runFrames_turnedLeft_mono p s fs,
    runFrames_turnedRight_mono p s fs, rfl, rfl⟩
  · simp [turnStep, hSince, htr, hBeyond, hHeld, hNZ]
  · intro hdir
    simp [turnStep, hSince, htr, hBeyond, hHeld, hNZ, hdir]
  · intro hdir
    simp [turnStep, hSince, htr, hBeyond, hHeld, hNZ, hdir]

/-- C4 amended witness: a concrete held left excursion sets `turnedLeft`
and leaves an already-set `lastDirection` untouched. -/
theorem C4_turn_event_amended_witness :
    (turnStep defaultProps ⟨some 100, some Dir.right, false, true, false⟩
      (-2) 400 0).turnDetected = some Dir.right ∧
    (turnStep defaultProps ⟨some 100, some Dir.right, false, true, false⟩
      (-2) 400 0).turnedLeft = true := by
  have h := C4_turn_event_amended defaultProps
    ⟨some 100, some Dir.right, false, true, false⟩ (-2) 400 100 0
    resetSession [] (by norm_num [defaultProps, abs_ite])
    rfl (by norm_num) (by norm_num [defaultProps])
  refine ⟨?_, h.2.1 (by norm_num)⟩
  have h1 := h.1
  simpa using h1

/-- C5 counterexample: losing the face in the middle of a closure clears
`closedSinceTimestamp` but leaves `isClosed` set, so the frame does not
clear both fields and the "set iff closed" invariant fails right after it. -/
theorem C5_counterexample :
    (runFrames defaultProps resetSession c5Trace).eyesWereClosed = true ∧
    (runFrames defaultProps resetSession c5Trace).eyesClosedSince = none := by
  norm_num [runFrames, c5Trace, processFrame, onResults, onFace, onNoFace,
    blinkPhase, yawPhase, blinkStep, turnStep, ema, truthyQ, finalGuard,
    resetSession, defaultProps, round3, round_eq, List.foldl, abs_ite]

/-- C5 amended: a no-face frame clears only `closedSinceTimestamp`, leaving
`isClosed` as it was; consequently only one direction of the invariant
survives every processed frame: whenever `closedSinceTimestamp` is set,
`isClosed` is true. -/
theorem C5_noFace_invariant_amended (p : Props) (s : SessionState)
    (f : RawFrame)
    (hInv : s.eyesClosedSince.isSome = true → s.eyesWereClosed = true) :
    (onNoFace s).eyesClosedSince = none ∧
    (onNoFace s).eyesWereClosed = s.eyesWereClosed ∧
    ((processFrame p s f).eyesClosedSince.isSome = true →
      (processFrame p s f).eyesWereClosed = true) := by
  refine ⟨rfl, rfl, ?_⟩
  cases f with
  | noFace =>
    show (finalGuard (onNoFace s)).eyesClosedSince.isSome = true →
      (finalGuard (onNoFace s)).eyesWereClosed = true
    rw [(finalGuard_turn_fields _).2.2.2.2, (finalGuard_turn_fields _).2.2.2.1]
    intro h
    simp [onNoFace] at h
  | face l r y n =>
    show (finalGuard (yawPhase p (blinkPhase p s l r n) y n)).eyesClosedSince.isSome = true →
      (finalGuard (yawPhase p (blinkPhase p s l r n) y n)).eyesWereClosed = true
    rw [(finalGuard_turn_fields _).2.2.2.2, (finalGuard_turn_fields _).2.2.2.1,
      (yawPhase_fields p (blinkPhase p s l r n) y n).2.1,
      (yawPhase_fields p (blinkPhase p s l r n) y n).2.2]
    exact blinkStep_closed_of_since p
      ⟨s.eyesWereClosed, s.eyesClosedSince, s.lastBlinkAt, s.blinkCount⟩
      ((ema s.earLeftEMA l (35/100) + ema s.earRightEMA r (35/100)) / 2) n hInv

/-- C5 amended witness: on a concrete closed state a face frame that stays
in the hysteresis band keeps the timer set and the closed flag true. -/
theorem C5_noFace_invariant_amended_witness :
    (onNoFace midClosure).eyesClosedSince = none ∧
    (onNoFace midClosure).eyesWereClosed = true ∧
    (processFrame defaultProps midClosure
      (.face 0.1 0.1 0 600)).eyesWereClosed = true := by
  have h := C5_noFace_invariant_amended defaultProps midClosure
    (.face 0.1 0.1 0 600) (fun _ => rfl)
  refine ⟨h.1, h.2.1, h.2.2 ?_⟩
  norm_num [processFrame, onResults, onFace, blinkPhase, yawPhase, blinkStep,
    turnStep, ema, truthyQ, finalGuard, resetSession, midClosure,
    defaultProps, round3, round_eq, abs_ite]

end Liveness

namespace Liveness

/-- C1: evaluation of the canonical session at a concrete trace with two
blinks and only a right turn: the decisive frame check at source lines
863-867 still uses the single-direction predicate
(`nextBlinkCount >= 2 && !!nextTurnDetected`), so `livenessPassed` becomes
true while `turnedLeft` is still false, contradicting the documented
both-directions pass predicate. -/
theorem C1_pass_with_single_direction :
    (runFrames defaultProps resetSession c1Trace).livenessPassed = true ∧
    (runFrames defaultProps resetSession c1Trace).turnedLeft = false ∧
    (runFrames defaultProps resetSession c1Trace).turnedRight = true ∧
    (runFrames defaultProps resetSession c1Trace).blinkCount = 2 := by
  norm_num [runFrames, c1Trace, processFrame, onResults, onFace, blinkPhase,
    yawPhase, blinkStep, turnStep, ema, truthyQ, finalGuard, resetSession,
    defaultProps, round3, round_eq, List.foldl, abs_ite]
  decide

/-- C8 counterexample: even with the caller-supplied minimum closed
duration lowered to 1 ms, the refractory boundary stays at the hard-coded
250 ms (a qualifying closure 249 ms after the last blink is discarded, one
at 250 ms is counted), and the exit threshold stays at the hard-coded
`earThreshold + 0.03` (an averaged EAR of 0.209 keeps the detector closed,
0.21 releases it): neither quantity is reachable from the configuration
surface. -/
theorem C8_counterexample :
    (blinkStep { earCloseMinMs := 1 } ⟨true, some 1100, 1000, 0⟩ 1 1249).blinkCount = 0 ∧
    (blinkStep { earCloseMinMs := 1 } ⟨true, some 1100, 1000, 0⟩ 1 1250).blinkCount = 1 ∧
    blinkStep { earCloseMinMs := 1 } ⟨true, some 1100, 1000, 0⟩ (209/1000) 1300 = ⟨true, some 1100, 1000, 0⟩ ∧
    (blinkStep { earCloseMinMs := 1 } ⟨true, some 1100, 1000, 0⟩ (21/100) 1300).eyesWereClosed = false := by
  norm_num [blinkStep]

/-- C8 amended: `earCloseMinMs` (default 120 ms) is caller-supplied
configuration and every duration comparison uses it, but the refractory
period is the constant 250 ms and the hysteresis margin the constant 0.03
inside the frame handler, for every possible props record: neither is
exposed at session creation. -/
theorem C8_config_amended (p : Props) (b : BlinkSt) (earAvg e now t0 : ℚ)
    (hClosed : b.eyesWereClosed = true)
    (hSince : b.eyesClosedSince = some t0)
    (hDur : now - t0 ≥ p.earCloseMinMs)
    (hOpen : earAvg ≥ p.earThreshold + 3/100) :
    (now - b.lastBlinkAt ≥ 250 →
      (blinkStep p b earAvg now).blinkCount = b.blinkCount + 1) ∧
    (¬ now - b.lastBlinkAt ≥ 250 →
      (blinkStep p b earAvg now).blinkCount = b.blinkCount) ∧
    (e ≥ p.earThreshold → e < p.earThreshold + 3/100 →
      blinkStep p b e now = b) := by
  have hno : ¬ (earAvg < p.earThreshold + 3/100) := not_lt.mpr hOpen
  refine ⟨?_, ?_, ?_⟩
  · intro href
    simp only [blinkStep, hClosed, hSince, if_true, Option.getD_some,
      decide_eq_true_eq, ge_iff_le]
    rw [if_neg hno, if_pos hDur, if_pos href]
  · intro href
    simp only [blinkStep, hClosed, hSince, if_true, Option.getD_some,
      decide_eq_true_eq, ge_iff_le]
    rw [if_neg hno, if_pos hDur, if_neg href]
  · intro _hLow hBand
    simp only [blinkStep, hClosed, if_true]
    rw [if_pos (by simpa using hBand)]
    simp

/-- C8 amended witness: the amended configuration statement evaluated at
the default props and a concrete closed state. -/
theorem C8_config_amended_witness :
    (blinkStep defaultProps ⟨true, some 100, 0, 0⟩ 1 400).blinkCount = 1 ∧
    blinkStep defaultProps ⟨true, some 100, 0, 0⟩ (20/100) 400 = ⟨true, some 100, 0, 0⟩ := by
  have h := C8_config_amended defaultProps ⟨true, some 100, 0, 0⟩ 1 (20/100)
    400 100 rfl rfl (by norm_num [defaultProps]) (by norm_num [defaultProps])
  exact ⟨h.1 (by norm_num), h.2.2 (by norm_num [defaultProps])
    (by norm_num [defaultProps])⟩

/-- C10: the last-blink timestamp is initialized (and reset) to the number
0 rather than "unset", so a session's first qualifying closure that ends
at a clock reading below 250 ms is discarded by the refractory check even
though no blink was ever counted in the session. -/
theorem C10_startup_refractory_loss (p : Props) (t0 now earAvg : ℚ)
    (hOpen : earAvg ≥ p.earThreshold + 3/100)
    (hDur : now - t0 ≥ p.earCloseMinMs)
    (hEarly : now < 250) :
    resetSession.lastBlinkAt = 0 ∧
    (blinkStep p ⟨true, some t0, 0, 0⟩ earAvg now).blinkCount = 0 ∧
    (blinkStep p ⟨true, some t0, 0, 0⟩ earAvg now).eyesWereClosed = false := by
  have hno : ¬ (earAvg < p.earThreshold + 3/100) := not_lt.mpr hOpen
  have href : ¬ ((250 : ℚ) ≤ now - 0) := by
    rw [sub_zero]; exact not_le.mpr hEarly
  refine ⟨rfl, ?_, ?_⟩ <;>
  · simp only [blinkStep, Option.getD_some, decide_eq_true_eq, ge_iff_le,
      if_true]
    rw [if_neg hno, if_neg href]
    split_ifs <;> rfl

/-- C10 witness: with default configuration, a 190 ms closure ending at
the 200 ms clock reading counts no blink. -/
theorem C10_startup_refractory_loss_witness :
    resetSession.lastBlinkAt = 0 ∧
    (blinkStep defaultProps ⟨true, some 10, 0, 0⟩ 1 200).blinkCount = 0 ∧
    (blinkStep defaultProps ⟨true, some 10, 0, 0⟩ 1 200).eyesWereClosed = false :=
  C10_startup_refractory_loss defaultProps 10 200 1
    (by norm_num [defaultProps]) (by norm_num [defaultProps]) (by norm_num)

end Liveness

namespace Liveness

/-- C9 counterexample: with a closure in flight, a frame carrying a
malformed landmark set (here the empty list) leaves the in-flight closure
timer untouched, while a genuine no-face frame clears it: the session does
not treat the malformed frame identically to "no face", and the swallowed
exception reaches no caller. -/
theorem C9_counterexample :
    c9Closed.eyesWereClosed = true ∧
    c9Closed.eyesClosedSince = some 1000 ∧
    (processLmFrame defaultProps c9Closed (.face [] 1100)).eyesClosedSince = some 1000 ∧
    (processLmFrame defaultProps c9Closed (.face [] 1100)).eyesWereClosed = true ∧
    (processLmFrame defaultProps c9Closed .noFace).eyesClosedSince = none := by
  have h1 : earFromLandmarks fullLm 159 145 33 133 = .ok 0 := by
    norm_num [earFromLandmarks, fullLm, List.getElem?_replicate]
  have h2 : earFromLandmarks fullLm 386 374 263 362 = .ok 0 := by
    norm_num [earFromLandmarks, fullLm, List.getElem?_replicate]
  have h3 : yawProxy fullLm = .ok 0 := by
    norm_num [yawProxy, fullLm, List.getElem?_replicate]
  have hc : c9Closed = { resetSession with earLeftEMA := some 0, earRightEMA := some 0, yawEMA := some 0, eyesWereClosed := true, eyesClosedSince := some 1000 } := by
    norm_num [c9Closed, processLmFrame, h1, h2, h3, blinkPhase, yawPhase,
      blinkStep, turnStep, ema, truthyQ, resetSession, defaultProps, round3,
      round_eq, abs_ite]
  have hBad : earFromLandmarks [] 159 145 33 133 = .error .insufficientLandmarks := rfl
  rw [hc]
  refine ⟨rfl, rfl, ?_, ?_, rfl⟩ <;> simp [processLmFrame, hBad]

/-- C9 amended: a frame whose landmark set lacks the EAR indices is a
complete no-op on the session state (the exception is caught before any
effect; in particular the in-flight timers are retained, not cleared, and
nothing is returned to the caller), while a frame whose landmark set has
the EAR indices but lacks the yaw indices still commits the whole
EMA-and-blink phase before the exception aborts the rest of the frame. In
neither case does the crash propagate. -/
theorem C9_malformed_frame_amended (p : Props) (s : SessionState)
    (lm lm2 : List Landmark) (now now2 left right : ℚ)
    (hBad : earFromLandmarks lm 159 145 33 133 = .error .insufficientLandmarks)
    (hL : earFromLandmarks lm2 159 145 33 133 = .ok left)
    (hR : earFromLandmarks lm2 386 374 263 362 = .ok right)
    (hY : yawProxy lm2 = .error .insufficientLandmarks) :
    processLmFrame p s (.face lm now) = s ∧
    processLmFrame p s (.face lm2 now2) = blinkPhase p s left right now2 := by
  constructor
  · simp [processLmFrame, hBad]
  · simp [processLmFrame, hL, hR, hY]

/-- C9 amended witness: the empty landmark list is a no-op frame, and a
400-point list (which has the EAR indices but not cheek index 454) commits
exactly the blink phase. -/
theorem C9_malformed_frame_amended_witness :
    processLmFrame defaultProps resetSession (.face [] 50) = resetSession ∧
    processLmFrame defaultProps resetSession (.face (List.replicate 400 ⟨0, 0⟩) 50)
      = blinkPhase defaultProps resetSession 0 0 50 := by
  have hBad : earFromLandmarks [] 159 145 33 133 = .error .insufficientLandmarks := rfl
  have hL : earFromLandmarks (List.replicate 400 ⟨0, 0⟩) 159 145 33 133 = .ok 0 := by
    norm_num [earFromLandmarks, List.getElem?_replicate]
  have hR : earFromLandmarks (List.replicate 400 ⟨0, 0⟩) 386 374 263 362 = .ok 0 := by
    norm_num [earFromLandmarks, List.getElem?_replicate]
  have hY : yawProxy (List.replicate 400 ⟨0, 0⟩) = .error .insufficientLandmarks := by
    norm_num [yawProxy, List.getElem?_replicate]
  exact C9_malformed_frame_amended defaultProps resetSession []
    (List.replicate 400 ⟨0, 0⟩) 50 50 0 0 hBad hL hR hY

end Liveness
